import Mathlib

/-!
Verification of the diagnostics subsystem of `systemctl-tui` (`src/utils.rs`).

The Rust source is shallowly embedded as follows:

* Filesystem paths are strings (`Path`); `PathBuf::from(s)` is the identity
  and `PathBuf::join` inserts a `/` separator.
* The process environment is a function `Env` from variable names to
  `Option String`; `none` models `std::env::var` returning an `Err`
  (variable unset, or set to a non-unicode value), `some s` models `Ok(s)`.
* The platform directory lookup `directories::ProjectDirs::from("com",
  "rgwood", "systemctl-tui")` is modelled by an `Option ProjectDirs`
  argument: `none` is the rare platform where no home directory can be
  determined.
* Stateful code (`TRACING_ENABLED`, the lazily initialised
  `TRACE_FILE_NAME`, the filesystem) is modelled by explicit state passing
  over `ProcState`, and every filesystem / clock interaction additionally
  emits an `FsOp` into a trace so that "performs zero filesystem
  operations" style claims are statable.
* Fallible Rust code returns `Except`; `.expect` / `.unwrap` panics are
  modelled as `Except.error` of the panic message.
-/

namespace SystemctlTui

/-- A filesystem path, modelled as its string representation.
`PathBuf::from(s)` keeps the string unmodified. -/
abbrev Path := String

/-- The process environment: `none` models `std::env::var` returning `Err`
(unset or non-unicode), `some s` models `Ok(s)` (note a variable set to the
empty string yields `some ""`). -/
abbrev Env := String → Option String

/-- Result of `ProjectDirs::from("com", "rgwood", "systemctl-tui")`: the
platform-conventional per-user directories. -/
structure ProjectDirs where
  data_local_dir : Path
  config_local_dir : Path

/-- Embedding of `get_data_dir` (src/utils.rs lines 37-46): the
`SYSTEMCTL_TUI_DATA` override, used verbatim, wins over the platform
lookup; with neither available the call fails.  The source performs no
filesystem access (in particular no existence check and no directory
creation), which is reflected by the function being pure in `env` and
`projectDirs`. -/
def get_data_dir (env : Env) (projectDirs : Option ProjectDirs) : Except String Path :=
  match env "SYSTEMCTL_TUI_DATA" with
  | some s => .ok s
  | none =>
    match projectDirs with
    | some proj_dirs => .ok proj_dirs.data_local_dir
    | none => .error "Unable to find data directory for systemctl-tui"

/-- Embedding of `get_config_dir` (src/utils.rs lines 48-57), analogous to
`get_data_dir` with the `SYSTEMCTL_TUI_CONFIG` override and the platform
config directory. -/
def get_config_dir (env : Env) (projectDirs : Option ProjectDirs) : Except String Path :=
  match env "SYSTEMCTL_TUI_CONFIG" with
  | some s => .ok s
  | none =>
    match projectDirs with
    | some proj_dirs => .ok proj_dirs.config_local_dir
    | none => .error "Unable to find config directory for systemctl-tui"

/-- Two successive calls of `get_data_dir` in one session (same environment,
same platform directories); the resolver consults nothing else, so the
session is fully described by these two inputs. -/
def resolve_data_dir_twice (env : Env) (projectDirs : Option ProjectDirs) :
    Except String Path × Except String Path :=
  (get_data_dir env projectDirs, get_data_dir env projectDirs)

/-- C5: if the dedicated override environment variable is set to a valid
value, `get_data_dir` (resp. `get_config_dir`) returns exactly that value as
the path, unmodified; no existence check is performed (the resolvers are
pure functions of environment and platform lookup). -/
theorem get_dirs_return_override_verbatim (env : Env) (projectDirs : Option ProjectDirs)
    (s t : String) :
    (env "SYSTEMCTL_TUI_DATA" = some s → get_data_dir env projectDirs = .ok s) ∧
    (env "SYSTEMCTL_TUI_CONFIG" = some t → get_config_dir env projectDirs = .ok t) := by
  constructor
  · intro h
    simp [get_data_dir, h]
  · intro h
    simp [get_config_dir, h]

/-- Witness for C5 at a concrete environment holding both overrides. -/
theorem get_dirs_return_override_verbatim_witness :
    get_data_dir
      (fun v => if v = "SYSTEMCTL_TUI_DATA" then some "/d" else
        if v = "SYSTEMCTL_TUI_CONFIG" then some "/c" else none) none = .ok "/d" ∧
    get_config_dir
      (fun v => if v = "SYSTEMCTL_TUI_DATA" then some "/d" else
        if v = "SYSTEMCTL_TUI_CONFIG" then some "/c" else none) none = .ok "/c" :=
  ⟨(get_dirs_return_override_verbatim _ none "/d" "/c").1 rfl,
   (get_dirs_return_override_verbatim _ none "/d" "/c").2 rfl⟩

/-- C6: the resolvers fail exactly when no environment override exists and
the platform lookup cannot supply a base directory.  (They are embedded as
pure functions — the source performs no filesystem access, in particular it
never creates the directory.) -/
theorem get_dirs_error_iff_no_override_and_no_platform (env : Env)
    (projectDirs : Option ProjectDirs) :
    ((∃ e, get_data_dir env projectDirs = .error e) ↔
      env "SYSTEMCTL_TUI_DATA" = none ∧ projectDirs = none) ∧
    ((∃ e, get_config_dir env projectDirs = .error e) ↔
      env "SYSTEMCTL_TUI_CONFIG" = none ∧ projectDirs = none) := by
  constructor
  · cases hd : env "SYSTEMCTL_TUI_DATA" <;> cases projectDirs <;>
      simp [get_data_dir, hd]
  · cases hc : env "SYSTEMCTL_TUI_CONFIG" <;> cases projectDirs <;>
      simp [get_config_dir, hc]

/-- C9: within a fixed session (same environment overrides, same platform
base directories) two calls of `get_data_dir` return the same directory:
the resolver is deterministic and idempotent, because the source reads only
the environment and the platform lookup. -/
theorem get_data_dir_idempotent (env : Env) (projectDirs : Option ProjectDirs) :
    (resolve_data_dir_twice env projectDirs).1 = (resolve_data_dir_twice env projectDirs).2 := rfl

/-- C10: an override variable set to the empty string is treated as set,
not unset: the resolvers return the empty path verbatim and do not fall
back to the platform directories (quantified over an arbitrary, possibly
available, platform lookup). -/
theorem get_dirs_empty_override_is_set (env : Env) (projectDirs : Option ProjectDirs)
    (hd : env "SYSTEMCTL_TUI_DATA" = some "") (hc : env "SYSTEMCTL_TUI_CONFIG" = some "") :
    get_data_dir env projectDirs = .ok "" ∧ get_config_dir env projectDirs = .ok "" := by
  constructor
  · simp [get_data_dir, hd]
  · simp [get_config_dir, hc]

/-- Witness for C10: empty-string overrides with a platform lookup that
would have supplied other directories. -/
theorem get_dirs_empty_override_is_set_witness :
    get_data_dir (fun _ => some "") (some ⟨"/plat/data", "/plat/config"⟩) = .ok "" ∧
    get_config_dir (fun _ => some "") (some ⟨"/plat/data", "/plat/config"⟩) = .ok "" :=
  get_dirs_empty_override_is_set (fun _ => some "") (some ⟨"/plat/data", "/plat/config"⟩) rfl rfl

/-- Filesystem / clock operations performed by the embedded code, recorded
in emission order.  `createFile` is `File::create` (create or truncate),
`openAppendCreate` is `OpenOptions::new().append(true).create(true).open`,
`writeAll` is `Write::write_all`, `readClock` is `SystemTime::now()`
(carrying the microseconds it returned). -/
inductive FsOp where
  | createDirAll (p : Path)
  | createFile (p : Path)
  | openAppendCreate (p : Path)
  | writeAll (p : Path) (data : String)
  | readClock (micros : Nat)
deriving DecidableEq, Repr

/-- Association-list update used by the filesystem model. -/
def setAssoc : List (Path × String) → Path → String → List (Path × String)
  | [], p, c => [(p, c)]
  | (q, d) :: rest, p, c =>
    if q = p then (q, c) :: rest else (q, d) :: setAssoc rest p c

/-- Association-list lookup used by the filesystem model. -/
def lookupAssoc : List (Path × String) → Path → Option String
  | [], _ => none
  | (q, d) :: rest, p => if q = p then some d else lookupAssoc rest p

/-- The filesystem, as far as the diagnostics subsystem touches it:
a set of existing directories and a map from file paths to contents. -/
structure Fs where
  dirs : List Path
  files : List (Path × String)
deriving DecidableEq, Repr

/-- Content of the file at `p`, `none` if it does not exist. -/
def Fs.lookup (fs : Fs) (p : Path) : Option String := lookupAssoc fs.files p

/-- Set (or create) the file at `p` with content `c`. -/
def Fs.setFile (fs : Fs) (p : Path) (c : String) : Fs :=
  { fs with files := setAssoc fs.files p c }

/-- Model of `std::fs::create_dir_all`: records the directory (with all
ancestors, collapsed to the one recorded path) as existing; succeeds whether
or not it already existed. -/
def Fs.createDirAll (fs : Fs) (p : Path) : Fs :=
  { fs with dirs := p :: fs.dirs }

/-- Model of `File::create`: creates the file, truncating any previous
content. -/
def Fs.createFile (fs : Fs) (p : Path) : Fs := fs.setFile p ""

/-- Model of opening with `append(true).create(true)`: creates an empty file
only when the path does not exist yet. -/
def Fs.openAppendCreate (fs : Fs) (p : Path) : Fs :=
  match fs.lookup p with
  | some _ => fs
  | none => fs.setFile p ""

/-- Model of `write_all` on a file handle opened in append mode. -/
def Fs.appendFile (fs : Fs) (p : Path) (s : String) : Fs :=
  fs.setFile p ((fs.lookup p).getD "" ++ s)

/-- Process-wide mutable state of src/utils.rs: the `TRACING_ENABLED`
atomic flag, the `lazy_static` cell behind `TRACE_FILE_NAME` (`none` while
the lazy value is still unevaluated), and the filesystem. -/
structure ProcState where
  tracingEnabled : Bool
  traceFileName : Option Path
  fs : Fs
deriving DecidableEq, Repr

/-- Model of `PathBuf::join` for a relative second component. -/
def pathJoin (dir file : Path) : Path := dir ++ "/" ++ file

/-- The trace-file path computed by the `TRACE_FILE_NAME` initialiser:
`directory.join(format!("systemctl-tui-trace-{timestamp_iso8601}.log"))`,
where `timestamp` stands for `chrono::Local::now().format
("%Y-%m-%d-%H-%M-%S")` — the wall-clock time at first access, at second
precision. -/
def traceFilePath (dir : Path) (timestamp : String) : Path :=
  pathJoin dir ("systemctl-tui-trace-" ++ timestamp ++ ".log")

/-- Forcing the `lazy_static` `TRACE_FILE_NAME` (src/utils.rs lines 16-22):
on first access it resolves the data directory (the `.expect` panic on
failure is modelled as `Except.error`) and caches the joined path; later
accesses return the cached path unchanged. -/
def forceTraceFileName (env : Env) (projectDirs : Option ProjectDirs)
    (timestamp : String) (st : ProcState) : Except String (ProcState × Path) :=
  match st.traceFileName with
  | some p => .ok (st, p)
  | none =>
    match get_data_dir env projectDirs with
    | .error _ => .error "Unable to get data directory"
    | .ok dir =>
      let p := traceFilePath dir timestamp
      .ok ({ st with traceFileName := some p }, p)

/-- The chrome-tracing JSON object written per event by `log_perf_event`
(src/utils.rs lines 106-117): the exact output of the `format!` call, with
`ts` the microseconds since the Unix epoch returned by `SystemTime::now()`
and `dur` the event duration in microseconds. -/
def formatPerfEvent (event : String) (ts dur : Nat) : String :=
  "\x7b\n  \"name\": \"" ++ event ++ "\",\n  \"cat\": \"PERF\",\n  \"ph\": \"X\",\n  \"ts\": "
    ++ Nat.repr ts ++ ",\n  \"dur\": " ++ Nat.repr dur ++ "\n\x7d"

/-- Embedding of `log_perf_event` (src/utils.rs lines 101-124).  The
disabled check on `TRACING_ENABLED` is the first branch, taken before the
trace path is forced and before any clock read; when enabled the call
forces `TRACE_FILE_NAME`, reads the clock (`now_micros`), formats the event
and appends the object followed by a literal `",\n"` via two separate
`write_all` calls on a freshly opened append-mode handle.  Returns the new
state together with the operations performed. -/
def log_perf_event (env : Env) (projectDirs : Option ProjectDirs) (timestamp : String)
    (now_micros : Nat) (event : String) (duration_micros : Nat) (st : ProcState) :
    Except String (ProcState × List FsOp) :=
  if st.tracingEnabled = false then .ok (st, [])
  else
    match forceTraceFileName env projectDirs timestamp st with
    | .error e => .error e
    | .ok (st1, log_path) =>
      let eventStr := formatPerfEvent event now_micros duration_micros
      let fs1 := ((st1.fs.openAppendCreate log_path).appendFile log_path eventStr).appendFile
        log_path ",\n"
      .ok ({ st1 with fs := fs1 },
        [FsOp.readClock now_micros, FsOp.openAppendCreate log_path,
         FsOp.writeAll log_path eventStr, FsOp.writeAll log_path ",\n"])

/-- Errors of `initialize_logging`: data-directory resolution failure,
`create_dir_all` failure (carrying the directory of the
`"{directory:?} could not be created"` context and the wrapped underlying
cause), `tui_logger::init_logger` failure, or a panic from the `unwrap`
calls on the trace-file creation path. -/
inductive InitError where
  | dataDirResolution (msg : String)
  | dirCreateFailed (dir : Path) (cause : String)
  | tuiLoggerInit (cause : String)
  | panicked (msg : String)
deriving DecidableEq, Repr

/-- Outcomes of the fallible external calls inside `initialize_logging`
that the embedding does not compute itself: `some cause` makes the
corresponding call fail with that cause. -/
structure IoOracle where
  create_dir_all_error : Option String
  init_logger_error : Option String
deriving DecidableEq, Repr

/-- Oracle under which every external call succeeds. -/
def oracleOk : IoOracle := ⟨none, none⟩

/-- Embedding of `initialize_logging` (src/utils.rs lines 59-99): resolves
the data directory, creates it recursively (`create_dir_all`, wrapping a
failure cause in the `"could not be created"` context), sets up the rolling
file appender and the tui-logger (the rolling appender and subscriber
layers perform no immediate filesystem operation; `init_logger` may fail),
and, when `enable_tracing` is set, stores `true` into `TRACING_ENABLED`,
creates the trace file (forcing `TRACE_FILE_NAME`) and writes the opening
`"[\n"` marker. -/
def initialize_logging (env : Env) (projectDirs : Option ProjectDirs) (oracle : IoOracle)
    (timestamp : String) (enable_tracing : Bool) (st : ProcState) :
    Except InitError (ProcState × List FsOp) :=
  match get_data_dir env projectDirs with
  | .error e => .error (.dataDirResolution e)
  | .ok directory =>
    match oracle.create_dir_all_error with
    | some cause => .error (.dirCreateFailed directory cause)
    | none =>
      let st1 := { st with fs := st.fs.createDirAll directory }
      match oracle.init_logger_error with
      | some cause => .error (.tuiLoggerInit cause)
      | none =>
        if enable_tracing then
          let st2 := { st1 with tracingEnabled := true }
          match forceTraceFileName env projectDirs timestamp st2 with
          | .error e => .error (.panicked e)
          | .ok (st3, p) =>
            .ok ({ st3 with fs := (st3.fs.createFile p).appendFile p "[\n" },
              [FsOp.createDirAll directory, FsOp.createFile p, FsOp.writeAll p "[\n"])
        else .ok (st1, [FsOp.createDirAll directory])

/-- Observable actions of the hook installed by `initialize_panic_handler`
(src/utils.rs lines 26-35): the attempt to restore the terminal, an error
log, the `better_panic` crash report on standard error, and
`std::process::exit`. -/
inductive PanicStep where
  | restoreTerminal
  | logError (msg : String)
  | reportCrash
  | exitProcess (code : Nat)
deriving DecidableEq, Repr

/-- The panic hook body, as a function of the result of
`crate::terminal::exit()`: restore the terminal first; if that failed, log
the failure; then produce the `better_panic` report on standard error; then
exit with `libc::EXIT_FAILURE` (1).  The returned list is the complete
action sequence — nothing follows the exit, so control never returns to the
faulted execution context. -/
def panic_hook (terminal_exit : Except String Unit) : List PanicStep :=
  PanicStep.restoreTerminal ::
    (match terminal_exit with
     | .error r => [PanicStep.logError ("Unable to exit Terminal: " ++ r)]
     | .ok _ => []) ++ [PanicStep.reportCrash, PanicStep.exitProcess 1]

/-- Recogniser for `FsOp.createFile` operations (file creations by
`File::create`). -/
def FsOp.isCreateFile : FsOp → Bool
  | FsOp.createFile _ => true
  | _ => false

/-- A sequence of `log_perf_event` calls: each entry is the clock value,
event name and duration of one call.  Returns the final state and the
concatenated operation traces. -/
def runEvents (env : Env) (projectDirs : Option ProjectDirs) (timestamp : String) :
    List (Nat × String × Nat) → ProcState → Except String (ProcState × List FsOp)
  | [], st => .ok (st, [])
  | e :: rest, st =>
    match log_perf_event env projectDirs timestamp e.1 e.2.1 e.2.2 st with
    | .error msg => .error msg
    | .ok (st1, ops) =>
      match runEvents env projectDirs timestamp rest st1 with
      | .error msg => .error msg
      | .ok (stN, ops2) => .ok (stN, ops ++ ops2)

/-- Operations performed by one enabled `log_perf_event` call whose trace
path is already cached as `p`. -/
def perfEventOps (p : Path) (e : Nat × String × Nat) : List FsOp :=
  [FsOp.readClock e.1, FsOp.openAppendCreate p,
   FsOp.writeAll p (formatPerfEvent e.2.1 e.1 e.2.2), FsOp.writeAll p ",\n"]

theorem lookupAssoc_setAssoc (l : List (Path × String)) (p q : Path) (c : String) :
    lookupAssoc (setAssoc l p c) q = if q = p then some c else lookupAssoc l q := by
  induction l with
  | nil =>
    by_cases h : q = p
    · subst h; simp [setAssoc, lookupAssoc]
    · have h' : ¬p = q := fun hh => h hh.symm
      simp [setAssoc, lookupAssoc, h, h']
  | cons hd tl ih =>
    obtain ⟨k, v⟩ := hd
    by_cases h1 : k = p
    · subst h1
      by_cases h2 : k = q
      · subst h2; simp [setAssoc, lookupAssoc]
      · have h2' : ¬q = k := fun hh => h2 hh.symm
        simp [setAssoc, lookupAssoc, h2, h2']
    · by_cases h2 : k = q
      · subst h2
        simp [setAssoc, lookupAssoc, h1]
      · have h2' : ¬q = k := fun hh => h2 hh.symm
        simp [setAssoc, lookupAssoc, h1, h2, h2', ih]

theorem Fs.lookup_setFile (fs : Fs) (p q : Path) (c : String) :
    (fs.setFile p c).lookup q = if q = p then some c else fs.lookup q :=
  lookupAssoc_setAssoc fs.files p q c

theorem Fs.dirs_setFile (fs : Fs) (p : Path) (c : String) :
    (fs.setFile p c).dirs = fs.dirs := rfl

/-- Evaluation of an enabled `log_perf_event` call when the trace-file path
is already cached: it opens, appends the formatted object and the trailing
comma, and reports exactly the operations of `perfEventOps`. -/
theorem log_perf_event_enabled_cached (env : Env) (projectDirs : Option ProjectDirs)
    (timestamp : String) (now_micros : Nat) (event : String) (duration_micros : Nat)
    (st : ProcState) (p : Path) (hp : st.traceFileName = some p)
    (ht : st.tracingEnabled = true) :
    log_perf_event env projectDirs timestamp now_micros event duration_micros st =
      .ok ({ st with fs := ((st.fs.openAppendCreate p).appendFile p
              (formatPerfEvent event now_micros duration_micros)).appendFile p ",\n" },
        perfEventOps p (now_micros, event, duration_micros)) := by
  simp [log_perf_event, ht, forceTraceFileName, hp, perfEventOps]

/-- Invariant of a run of enabled `log_perf_event` calls with a cached
trace path `p` denoting an existing file: the run succeeds, performs
exactly the per-event operations on `p`, keeps the cached path and the
enabled flag, keeps the file existing, and touches no other file and no
directory. -/
theorem runEvents_traced (env : Env) (projectDirs : Option ProjectDirs) (timestamp : String)
    (p : Path) :
    ∀ (events : List (Nat × String × Nat)) (st : ProcState),
      st.traceFileName = some p → st.tracingEnabled = true → (st.fs.lookup p).isSome →
      ∃ stN, runEvents env projectDirs timestamp events st =
          .ok (stN, events.flatMap (perfEventOps p)) ∧
        stN.traceFileName = some p ∧ stN.tracingEnabled = true ∧
        (stN.fs.lookup p).isSome ∧
        (∀ q, q ≠ p → stN.fs.lookup q = st.fs.lookup q) ∧ stN.fs.dirs = st.fs.dirs := by
  intro events
  induction events with
  | nil =>
    intro st hp ht hfile
    exact ⟨st, by simp [runEvents], hp, ht, hfile, fun q _ => rfl, rfl⟩
  | cons e rest ih =>
    intro st hp ht hfile
    obtain ⟨cur, hcur⟩ := Option.isSome_iff_exists.mp hfile
    have hopen : st.fs.openAppendCreate p = st.fs := by
      simp [Fs.openAppendCreate, hcur]
    set st1 : ProcState :=
      { st with fs := ((st.fs.openAppendCreate p).appendFile p
          (formatPerfEvent e.2.1 e.1 e.2.2)).appendFile p ",\n" } with hst1
    have h1p : st1.traceFileName = some p := hp
    have h1t : st1.tracingEnabled = true := ht
    have h1file : (st1.fs.lookup p).isSome := by
      simp [hst1, Fs.appendFile, Fs.lookup_setFile]
    have h1other : ∀ q, q ≠ p → st1.fs.lookup q = st.fs.lookup q := by
      intro q hq
      simp [hst1, hopen, Fs.appendFile, Fs.lookup_setFile, hq]
    have h1dirs : st1.fs.dirs = st.fs.dirs := by
      simp [hst1, hopen, Fs.appendFile, Fs.dirs_setFile]
    obtain ⟨stN, hrun, hNp, hNt, hNfile, hNother, hNdirs⟩ := ih st1 h1p h1t h1file
    refine ⟨stN, ?_, hNp, hNt, hNfile, ?_, by rw [hNdirs, h1dirs]⟩
    · simp only [runEvents,
        log_perf_event_enabled_cached env projectDirs timestamp e.1 e.2.1 e.2.2 st p hp ht,
        ← hst1, hrun, List.flatMap_cons]
    · intro q hq
      rw [hNother q hq, h1other q hq]

/-- C7: `initialize_logging` creates the resolved data directory
recursively via `create_dir_all` as its first filesystem operation — over an
arbitrary prior filesystem state, so the directory need not exist
beforehand — and when that creation fails it returns the error that wraps
the underlying cause in the `"could not be created"` context instead of
succeeding. -/
theorem initialize_logging_creates_dir_or_wraps_cause (env : Env)
    (projectDirs : Option ProjectDirs) (timestamp : String) (enable_tracing : Bool)
    (st : ProcState) (dir : Path) (hdir : get_data_dir env projectDirs = .ok dir) :
    (∀ (oracle : IoOracle) (cause : String), oracle.create_dir_all_error = some cause →
      initialize_logging env projectDirs oracle timestamp enable_tracing st =
        .error (.dirCreateFailed dir cause)) ∧
    (∃ st' ops, initialize_logging env projectDirs oracleOk timestamp enable_tracing st =
        .ok (st', ops) ∧ dir ∈ st'.fs.dirs ∧ ops.head? = some (FsOp.createDirAll dir)) := by
  constructor
  · intro oracle cause hc
    simp [initialize_logging, hdir, hc]
  · cases enable_tracing with
    | false =>
      have hinit : initialize_logging env projectDirs oracleOk timestamp false st =
          .ok ({ st with fs := st.fs.createDirAll dir }, [FsOp.createDirAll dir]) := by
        simp [initialize_logging, hdir, oracleOk]
      exact ⟨_, _, hinit, by simp [Fs.createDirAll], rfl⟩
    | true =>
      cases hcache : st.traceFileName with
      | none =>
        have hinit : initialize_logging env projectDirs oracleOk timestamp true st =
            .ok (ProcState.mk true (some (traceFilePath dir timestamp))
                (((st.fs.createDirAll dir).createFile
                    (traceFilePath dir timestamp)).appendFile
                  (traceFilePath dir timestamp) "[\n"),
              [FsOp.createDirAll dir, FsOp.createFile (traceFilePath dir timestamp),
               FsOp.writeAll (traceFilePath dir timestamp) "[\n"]) := by
          simp [initialize_logging, hdir, oracleOk, forceTraceFileName, hcache]
        exact ⟨_, _, hinit,
          by simp [Fs.appendFile, Fs.createFile, Fs.setFile, Fs.createDirAll], rfl⟩
      | some p =>
        have hinit : initialize_logging env projectDirs oracleOk timestamp true st =
            .ok (ProcState.mk true (some p)
                (((st.fs.createDirAll dir).createFile p).appendFile p "[\n"),
              [FsOp.createDirAll dir, FsOp.createFile p, FsOp.writeAll p "[\n"]) := by
          simp [initialize_logging, hdir, oracleOk, forceTraceFileName, hcache]
        exact ⟨_, _, hinit,
          by simp [Fs.appendFile, Fs.createFile, Fs.setFile, Fs.createDirAll], rfl⟩

theorem perfEventOps_shape (p : Path) (op : FsOp) (e : Nat × String × Nat)
    (h : op ∈ perfEventOps p e) :
    op = FsOp.openAppendCreate p ∨ (∃ m, op = FsOp.readClock m) ∨
      ∃ s, op = FsOp.writeAll p s := by
  simp only [perfEventOps, List.mem_cons, List.not_mem_nil, or_false] at h
  rcases h with h | h | h | h <;> subst h <;> simp

/-- C8: once the process opts into tracing, the trace-file path is the one
computed from the data directory and the first-access timestamp, the file
is created exactly once (by `initialize_logging`), every subsequent
`log_perf_event` call opens and appends that same path, and no second
trace file is created within the process: across the whole run exactly one
`createFile` operation occurs, and all later operations target the cached
path. -/
theorem trace_file_created_once (env : Env) (projectDirs : Option ProjectDirs)
    (timestamp : String) (st0 : ProcState) (dir : Path)
    (events : List (Nat × String × Nat))
    (hdir : get_data_dir env projectDirs = .ok dir) (h0 : st0.traceFileName = none) :
    ∃ st1 ops1 stN ops2,
      initialize_logging env projectDirs oracleOk timestamp true st0 = .ok (st1, ops1) ∧
      st1.traceFileName = some (traceFilePath dir timestamp) ∧
      runEvents env projectDirs timestamp events st1 = .ok (stN, ops2) ∧
      stN.traceFileName = some (traceFilePath dir timestamp) ∧
      ops2 = events.flatMap (perfEventOps (traceFilePath dir timestamp)) ∧
      (ops1 ++ ops2).countP (fun op => op.isCreateFile) = 1 ∧
      FsOp.createFile (traceFilePath dir timestamp) ∈ ops1 ∧
      (∀ op ∈ ops2, op = FsOp.openAppendCreate (traceFilePath dir timestamp) ∨
        (∃ m, op = FsOp.readClock m) ∨
        (∃ s, op = FsOp.writeAll (traceFilePath dir timestamp) s)) := by
  have hinit : initialize_logging env projectDirs oracleOk timestamp true st0 =
      .ok (ProcState.mk true (some (traceFilePath dir timestamp))
          (((st0.fs.createDirAll dir).createFile
              (traceFilePath dir timestamp)).appendFile
            (traceFilePath dir timestamp) "[\n"),
        [FsOp.createDirAll dir, FsOp.createFile (traceFilePath dir timestamp),
         FsOp.writeAll (traceFilePath dir timestamp) "[\n"]) := by
    simp [initialize_logging, hdir, oracleOk, forceTraceFileName, h0]
  have hfile : ((ProcState.mk true (some (traceFilePath dir timestamp))
      (((st0.fs.createDirAll dir).createFile
          (traceFilePath dir timestamp)).appendFile
        (traceFilePath dir timestamp) "[\n")).fs.lookup (traceFilePath dir timestamp)).isSome := by
    simp [Fs.appendFile, Fs.lookup_setFile]
  obtain ⟨stN, hrun, hNp, hNt, hNfile, hNother, hNdirs⟩ :=
    runEvents_traced env projectDirs timestamp (traceFilePath dir timestamp) events
      (ProcState.mk true (some (traceFilePath dir timestamp))
        (((st0.fs.createDirAll dir).createFile
            (traceFilePath dir timestamp)).appendFile
          (traceFilePath dir timestamp) "[\n")) rfl rfl hfile
  have hops2zero : (events.flatMap (perfEventOps (traceFilePath dir timestamp))).countP
      (fun op => op.isCreateFile) = 0 := by
    refine List.countP_eq_zero.mpr ?_
    intro op hop
    simp only [List.mem_flatMap] at hop
    obtain ⟨e, _, hm⟩ := hop
    rcases perfEventOps_shape (traceFilePath dir timestamp) op e hm with h | ⟨m, h⟩ | ⟨s, h⟩ <;>
      subst h <;> simp [FsOp.isCreateFile]
  refine ⟨_, _, stN, _, hinit, rfl, hrun, hNp, rfl, ?_, by simp, ?_⟩
  · rw [List.countP_append, hops2zero]
    simp [List.countP_cons, FsOp.isCreateFile]
  · intro op hop
    simp only [List.mem_flatMap] at hop
    obtain ⟨e, _, hm⟩ := hop
    exact perfEventOps_shape (traceFilePath dir timestamp) op e hm

/-- Witness for C8 at a concrete environment, fresh process state and a
one-event run. -/
theorem trace_file_created_once_witness :
    ∃ st1 ops1 stN ops2,
      initialize_logging (fun v => if v = "SYSTEMCTL_TUI_DATA" then some "/data" else none)
        none oracleOk "2024-01-02-03-04-05" true ⟨false, none, ⟨[], []⟩⟩ = .ok (st1, ops1) ∧
      st1.traceFileName = some (traceFilePath "/data" "2024-01-02-03-04-05") ∧
      runEvents (fun v => if v = "SYSTEMCTL_TUI_DATA" then some "/data" else none) none
        "2024-01-02-03-04-05" [(5, "a", 10)] st1 = .ok (stN, ops2) ∧
      stN.traceFileName = some (traceFilePath "/data" "2024-01-02-03-04-05") ∧
      ops2 = [(5, "a", 10)].flatMap (perfEventOps (traceFilePath "/data" "2024-01-02-03-04-05")) ∧
      (ops1 ++ ops2).countP (fun op => op.isCreateFile) = 1 ∧
      FsOp.createFile (traceFilePath "/data" "2024-01-02-03-04-05") ∈ ops1 ∧
      (∀ op ∈ ops2,
        op = FsOp.openAppendCreate (traceFilePath "/data" "2024-01-02-03-04-05") ∨
        (∃ m, op = FsOp.readClock m) ∨
        (∃ s, op = FsOp.writeAll (traceFilePath "/data" "2024-01-02-03-04-05") s)) :=
  trace_file_created_once (fun v => if v = "SYSTEMCTL_TUI_DATA" then some "/data" else none)
    none "2024-01-02-03-04-05" ⟨false, none, ⟨[], []⟩⟩ "/data" [(5, "a", 10)] rfl rfl

/-- Witness for C7: with the override set, a failing `create_dir_all` is
reported as the wrapping error at a concrete input. -/
theorem initialize_logging_creates_dir_or_wraps_cause_witness :
    initialize_logging (fun v => if v = "SYSTEMCTL_TUI_DATA" then some "/d" else none) none
      ⟨some "permission denied", none⟩ "2024-01-02-03-04-05" false ⟨false, none, ⟨[], []⟩⟩ =
      .error (.dirCreateFailed "/d" "permission denied") :=
  (initialize_logging_creates_dir_or_wraps_cause
      (fun v => if v = "SYSTEMCTL_TUI_DATA" then some "/d" else none) none
      "2024-01-02-03-04-05" false ⟨false, none, ⟨[], []⟩⟩ "/d" rfl).1
    ⟨some "permission denied", none⟩ "permission denied" rfl

/-- C2: with `TRACING_ENABLED` false, `log_perf_event` returns with the
state unchanged and an empty operation trace — zero filesystem operations
and no clock read (`FsOp.readClock` would otherwise appear); the disabled
check is the first branch taken. -/
theorem log_perf_event_disabled_is_noop (env : Env) (projectDirs : Option ProjectDirs)
    (timestamp : String) (now_micros : Nat) (event : String) (duration_micros : Nat)
    (st : ProcState) (h : st.tracingEnabled = false) :
    log_perf_event env projectDirs timestamp now_micros event duration_micros st =
      .ok (st, []) := by
  simp [log_perf_event, h]

/-- Witness for C2 at a concrete disabled state. -/
theorem log_perf_event_disabled_is_noop_witness :
    log_perf_event (fun _ => none) none "2024-01-02-03-04-05" 77 "render" 10
      ⟨false, none, ⟨[], []⟩⟩ = .ok (⟨false, none, ⟨[], []⟩⟩, []) :=
  log_perf_event_disabled_is_noop (fun _ => none) none "2024-01-02-03-04-05" 77 "render" 10
    ⟨false, none, ⟨[], []⟩⟩ rfl

/-- C4: the panic hook first attempts terminal restoration, then produces
the crash report, then exits with the non-zero failure status as its final
action (never returning); when restoration fails the failure is logged and
the report is still produced. -/
theorem panic_hook_restore_report_exit (terminal_exit : Except String Unit) :
    (panic_hook terminal_exit).head? = some .restoreTerminal ∧
    (panic_hook terminal_exit).getLast? = some (.exitProcess 1) ∧
    (1 : Nat) ≠ 0 ∧
    ((terminal_exit.isOk ∧ panic_hook terminal_exit =
        [.restoreTerminal, .reportCrash, .exitProcess 1]) ∨
     (∃ r, terminal_exit = .error r ∧ panic_hook terminal_exit =
        [.restoreTerminal, .logError ("Unable to exit Terminal: " ++ r),
         .reportCrash, .exitProcess 1])) := by
  cases terminal_exit <;> simp [panic_hook, Except.isOk, Except.toBool]

/-- JSON scalar values occurring in trace events: strings (no escapes are
produced by the recorder) and non-negative integers. -/
inductive JsonVal where
  | str : String → JsonVal
  | num : Nat → JsonVal
deriving DecidableEq, Repr

/-- Serialisation of a JSON scalar: strings quoted, numbers in decimal. -/
def renderVal : JsonVal → String
  | .str s => "\"" ++ s ++ "\""
  | .num n => Nat.repr n

/-- Serialisation of one object member, `"key": value`. -/
def renderMember (kv : String × JsonVal) : String :=
  "\"" ++ kv.1 ++ "\": " ++ renderVal kv.2

/-- Members joined by `,` (with the two-space indentation layout). -/
def renderMembers : List (String × JsonVal) → String
  | [] => ""
  | [kv] => renderMember kv
  | kv :: rest => renderMember kv ++ ",\n  " ++ renderMembers rest

/-- Serialisation of a JSON object.  JSON is whitespace-insensitive between
tokens; this serialiser fixes one layout (newline and two-space indent per
member) so that serialisations are unique strings. -/
def renderObj (fields : List (String × JsonVal)) : String :=
  "\x7b\n  " ++ renderMembers fields ++ "\n\x7d"

/-- Objects joined by `,`. -/
def renderObjs : List (List (String × JsonVal)) → String
  | [] => ""
  | [o] => renderObj o
  | o :: rest => renderObj o ++ ",\n" ++ renderObjs rest

/-- Serialisation of a JSON array of objects (same fixed-layout convention:
one element per line). -/
def renderArr (objs : List (List (String × JsonVal))) : String :=
  "[\n" ++ renderObjs objs ++ "\n]"

/-- The JSON object a single perf event denotes: fields `name`, `cat` =
`"PERF"`, `ph` = `"X"`, `ts` (microseconds since the Unix epoch), `dur`
(duration in microseconds), in that order. -/
def perfEventFields (name : String) (ts dur : Nat) : List (String × JsonVal) :=
  [("name", .str name), ("cat", .str "PERF"), ("ph", .str "X"),
   ("ts", .num ts), ("dur", .num dur)]

/-- Removal of the first `,` of a character list (and nothing else). -/
def removeFirstComma : List Char → List Char
  | [] => []
  | c :: rest => if c = ',' then rest else c :: removeFirstComma rest

/-- The spec's consumer-side fix-up of the trace fragment: strip the
trailing comma (the last comma of the content) and append a closing
bracket. -/
def stripAndClose (s : String) : String :=
  String.mk ((removeFirstComma s.data.reverse).reverse ++ [']'])

theorem stripAndClose_append_comma (X : String) :
    stripAndClose (X ++ ",\n") = X ++ "\n]" := by
  obtain ⟨l⟩ := X
  have h1 : (String.mk l ++ ",\n").data = l ++ [',', '\n'] := rfl
  simp only [stripAndClose, h1]
  have h2 : (l ++ [',', '\n']).reverse = '\n' :: ',' :: l.reverse := by simp
  rw [h2]
  have h3 : removeFirstComma ('\n' :: ',' :: l.reverse) = '\n' :: l.reverse := by
    simp [removeFirstComma]
  rw [h3]
  have h4 : ('\n' :: l.reverse).reverse = l ++ ['\n'] := by simp
  rw [h4]
  show String.mk ((l ++ ['\n']) ++ [']']) = String.mk l ++ "\n]"
  rw [List.append_assoc]
  rfl

/-- The `format!` output of `log_perf_event` is exactly the fixed-layout
serialisation of the corresponding five-field JSON object. -/
theorem renderObj_perfEventFields (n : String) (t d : Nat) :
    renderObj (perfEventFields n t d) = formatPerfEvent n t d := by
  have hA1 : ("\x7b\n  \"name\": \"" : String)
      = "\x7b\n  " ++ "\"" ++ "name" ++ "\": " ++ "\"" := rfl
  have hA2 : ("\",\n  \"cat\": \"PERF\",\n  \"ph\": \"X\",\n  \"ts\": " : String)
      = "\"" ++ ",\n  " ++ "\"" ++ "cat" ++ "\": " ++ "\"" ++ "PERF" ++ "\"" ++ ",\n  "
        ++ "\"" ++ "ph" ++ "\": " ++ "\"" ++ "X" ++ "\"" ++ ",\n  " ++ "\"" ++ "ts"
        ++ "\": " := rfl
  have hA3 : (",\n  \"dur\": " : String) = ",\n  " ++ "\"" ++ "dur" ++ "\": " := rfl
  simp only [renderObj, perfEventFields, renderMembers, renderMember, renderVal,
    formatPerfEvent]
  rw [hA1, hA2, hA3]
  simp only [← String.append_assoc]

/-- A concrete environment for the tracing scenario: the data-directory
override is set to `/data`. -/
def demoEnv : Env := fun v => if v = "SYSTEMCTL_TUI_DATA" then some "/data" else none

/-- The C1 scenario: start a fresh process, initialise logging with tracing
enabled, then record event `"a"` (duration 10µs, clock `ts1`) followed by
event `"b"` (duration 20µs, clock `ts2`); return the content of the trace
file. -/
def tracingScenario (ts1 ts2 : Nat) : Option String :=
  match initialize_logging demoEnv none oracleOk "2024-01-02-03-04-05" true
      ⟨false, none, ⟨[], []⟩⟩ with
  | .error _ => none
  | .ok (st1, _) =>
    match runEvents demoEnv none "2024-01-02-03-04-05" [(ts1, "a", 10), (ts2, "b", 20)] st1 with
    | .error _ => none
    | .ok (stN, _) => stN.fs.lookup (traceFilePath "/data" "2024-01-02-03-04-05")

/-- C1: with tracing enabled, appending events `"a"` (10µs) and `"b"`
(20µs) in that order produces a trace file whose content is the opening
`[` line followed by one JSON object per event in emission order — fields
`name`, `cat` = `"PERF"`, `ph` = `"X"`, `ts` (the clock value in
microseconds since the Unix epoch) and `dur` (10 then 20) — each object
followed by a literal comma, with no closing bracket; stripping the
trailing comma and appending `]` yields exactly the serialisation of the
two-element JSON array of those objects, in emitted order. -/
theorem trace_file_two_events (ts1 ts2 : Nat) :
    tracingScenario ts1 ts2 =
      some ("[\n" ++ formatPerfEvent "a" ts1 10 ++ ",\n"
        ++ formatPerfEvent "b" ts2 20 ++ ",\n") ∧
    stripAndClose ("[\n" ++ formatPerfEvent "a" ts1 10 ++ ",\n"
        ++ formatPerfEvent "b" ts2 20 ++ ",\n") =
      renderArr [perfEventFields "a" ts1 10, perfEventFields "b" ts2 20] := by
  constructor
  · rfl
  · rw [show ("[\n" ++ formatPerfEvent "a" ts1 10 ++ ",\n"
        ++ formatPerfEvent "b" ts2 20 ++ ",\n" : String)
      = ("[\n" ++ formatPerfEvent "a" ts1 10 ++ ",\n" ++ formatPerfEvent "b" ts2 20)
        ++ ",\n" from rfl]
    rw [stripAndClose_append_comma]
    simp only [renderArr, renderObjs, renderObj_perfEventFields, String.append_assoc]

/-- The write sequence of one enabled `log_perf_event` call (src/utils.rs
lines 121-123): the formatted object and the `",\n"` terminator are two
separate `write_all` calls on the append-mode handle, with no lock held
between or around them. -/
def eventWrites (name : String) (ts dur : Nat) : List String :=
  [formatPerfEvent name ts dur, ",\n"]

/-- Interleaving of the pending appends of two concurrent contexts under a
schedule (`true`: context 1 performs its next append; `false`: context 2).
Since the source takes no file or process lock, any schedule is a possible
execution; each single `write_all` is modelled as one atomic append, which
is charitable to the source. -/
def interleaveWrites : List Bool → List String → List String → List String
  | [], w1, w2 => w1 ++ w2
  | true :: s, w :: w1, w2 => w :: interleaveWrites s w1 w2
  | true :: s, [], w2 => interleaveWrites s [] w2
  | false :: s, w1, w :: w2 => w :: interleaveWrites s w1 w2
  | false :: s, w1, [] => interleaveWrites s w1 []

/-- Trace-file content after two concurrent `log_perf_event` calls whose
appends land in the order given by the schedule, starting from the file
holding the opening bracket line. -/
def concurrentTraceContent (sched : List Bool) (w1 w2 : List String) : String :=
  "[\n" ++ String.join (interleaveWrites sched w1 w2)

/-- The shapes the file may take if the two calls' writes never interleave:
each object immediately followed by its comma, in one of the two serial
orders. -/
def wellFormedTwoEventContent (a b content : String) : Prop :=
  content = "[\n" ++ a ++ ",\n" ++ b ++ ",\n" ∨
  content = "[\n" ++ b ++ ",\n" ++ a ++ ",\n"

/-- C3 (failing): under the schedule in which context 2's object lands
between context 1's object and context 1's comma, the file content is not
of the never-interleaved shape — the two object bodies are adjacent and the
two commas trail at the end, so the claim that concurrent writes never
interleave fails on the code, which takes no lock and splits each event
into two separate `write_all` calls. -/
theorem concurrent_writes_can_interleave :
    ¬ wellFormedTwoEventContent (formatPerfEvent "a" 1 10) (formatPerfEvent "b" 2 20)
      (concurrentTraceContent [true, false, true, false]
        (eventWrites "a" 1 10) (eventWrites "b" 2 20)) := by
  unfold wellFormedTwoEventContent
  decide

end SystemctlTui
